import Mathlib

/-!
# Observatorium configuration: memcached deployment and Thanos compactor

A shallow embedding of
`configuration_go/abstr/kubernetes/memcached/memcached.go` and
`configuration_go/abstr/kubernetes/thanos/compactor/compactor.go`.

Conventions of the embedding:

* Go `int` is 64 bits wide on the platforms this code is built for; it is an
  `Int` here, and the conversion `int32(x)` is `toInt32`, which keeps the low
  32 bits in two's complement.
* A Go pointer that may be nil is an `Option`.
* A Go panic is `Except.error`: `Failure.panicMsg` for an explicit `panic(msg)`
  and `Failure.nilDereference` for reading a field through a nil pointer.
* A method that assigns to its receiver returns the receiver's new state.
* Go maps are association lists in the order the source writes their entries.
-/

namespace Observatorium

/-! ## Go runtime -/

/-- Ways a call can abort instead of returning. -/
inductive Failure
  | panicMsg (msg : String)
  | nilDereference
  deriving DecidableEq, Repr

/-- Go conversion `int32(n)` of a 64-bit `int`: the low 32 bits, two's complement. -/
def toInt32 (n : Int) : Int :=
  (n + 2147483648) % 4294967296 - 2147483648

/-- Go formatting verb `%d` for an `int`. -/
def fmtInt (n : Int) : String :=
  toString n

/-- Go duration `time.Hour`, in nanoseconds. -/
def time.Hour : Int := 3600000000000

/-- The `net.TCPAddr` fields. -/
structure net.TCPAddr where
  IP : List Nat := []
  Port : Int := 0
  Zone : String := ""
  deriving DecidableEq, Repr

set_option linter.dupNamespace false

/-! ## Package `k8sutil` (declarations used by the two source files) -/

namespace k8sutil

/-- Image pull policies of `corev1`. -/
inductive PullPolicy
  | PullAlways
  | PullNever
  | PullIfNotPresent
  deriving DecidableEq, Repr

/-- Transport protocols of `corev1`. -/
inductive Protocol
  | ProtocolTCP
  | ProtocolUDP
  | ProtocolSCTP
  deriving DecidableEq, Repr

/-- Label keys `k8sutil.NameLabel`, ..., whose string values are not in the source files. -/
inductive LabelKey
  | NameLabel
  | InstanceLabel
  | PartOfLabel
  | ComponentLabel
  | VersionLabel
  deriving DecidableEq, Repr

/-- Go map index `m[k]` on a label map: the zero value `""` when the key is absent. -/
def labelAt (m : List (LabelKey × String)) (k : LabelKey) : String :=
  match m.find? (fun e => e.1 == k) with
  | some e => e.2
  | none => ""

/-- The `corev1.ContainerPort` fields that the source sets; `ContainerPort` is an `int32`. -/
structure ContainerPort where
  Name : String
  ContainerPort : Int
  Protocol : Protocol
  deriving DecidableEq, Repr

/-- The `corev1.ServicePort` fields that `k8sutil.NewServicePort` fills. `Port` is an
`int32`; `TargetPort` is an `intstr.IntOrString`, whose integer is an `int32`. -/
structure ServicePort where
  Name : String
  Port : Int
  TargetPort : Int
  deriving DecidableEq, Repr

/-- Modelled from the spec: `k8sutil.NewServicePort(name, port, targetPort)`, not in the
source files. It takes two Go `int`s and returns a `corev1.ServicePort`, whose port and
target port hold 32 bits: both arguments are narrowed with `int32`. -/
def NewServicePort (name : String) (port targetPort : Int) : ServicePort :=
  { Name := name, Port := toInt32 port, TargetPort := toInt32 targetPort }

/-- Modelled from the spec: resource requests and limits as built by
`k8sutil.NewResourcesRequirements`, not in the source files. -/
structure ResourceRequirements where
  cpuRequest : String := ""
  cpuLimit : String := ""
  memoryRequest : String := ""
  memoryLimit : String := ""
  deriving DecidableEq, Repr

/-- Modelled from the spec: `k8sutil.NewResourcesRequirements`, recording its arguments. -/
def NewResourcesRequirements (cpuRequest cpuLimit memoryRequest memoryLimit : String) :
    ResourceRequirements :=
  { cpuRequest := cpuRequest, cpuLimit := cpuLimit,
    memoryRequest := memoryRequest, memoryLimit := memoryLimit }

/-- Modelled from the spec: relabeling rules of a monitoring endpoint. The rules returned
by `k8sutil.GetDefaultServiceMonitorRelabelConfig` are not in the source files and are
kept symbolic. -/
inductive RelabelConfigs
  | unset
  | defaultServiceMonitor
  deriving DecidableEq, Repr

/-- Modelled from the spec: `k8sutil.GetDefaultServiceMonitorRelabelConfig()`. -/
def GetDefaultServiceMonitorRelabelConfig : RelabelConfigs :=
  RelabelConfigs.defaultServiceMonitor

/-- The `monv1.Endpoint` fields that the source sets. -/
structure Endpoint where
  Port : String
  RelabelConfigs : RelabelConfigs
  deriving DecidableEq, Repr

/-- The `k8sutil.ProbeConfig` fields that the source sets. -/
structure ProbeConfig where
  FailureThreshold : Int := 0
  PeriodSeconds : Int := 0
  deriving DecidableEq, Repr

/-- Modelled from the spec: the HTTP probe built by `k8sutil.NewProbe`, not in the source
files: the path, the target port and the thresholds. The target port of a `corev1.Probe`
is an `intstr.IntOrString`, whose integer is an `int32`. -/
structure Probe where
  Path : String
  Port : Int
  Config : ProbeConfig
  deriving DecidableEq, Repr

/-- Modelled from the spec: `k8sutil.NewProbe(path, port, config)`, not in the source files.
It takes a Go `int` and returns a probe whose target port holds 32 bits: the argument is
narrowed with `int32`. -/
def NewProbe (path : String) (port : Int) (config : ProbeConfig) : Probe :=
  { Path := path, Port := toInt32 port, Config := config }

/-- Modelled from the spec: `k8sutil.GetPortOrDefault(defaultValue, addr)`, not in the
source files: "if the record carries an explicit address/port override, use it;
otherwise use the component's documented default port constant": the port of the
address when the address is set, the default otherwise. -/
def GetPortOrDefault (defaultValue : Int) (addr : Option net.TCPAddr) : Int :=
  match addr with
  | some a => a.Port
  | none => defaultValue

/-- Modelled from the spec: `k8sutil.CheckProbePort(port, probe)`, not in the source
files: "for every declared probe, the probe's target port must equal a port actually
exposed; mismatch is a configuration error". An undeclared (nil) probe passes. -/
def CheckProbePort (port : Int) (probe : Option Probe) : Except Failure Unit :=
  match probe with
  | none => Except.ok ()
  | some p =>
    if p.Port = port then Except.ok ()
    else Except.error (Failure.panicMsg
      ("Unexpected port " ++ fmtInt p.Port ++ " for the probe, must be " ++ fmtInt port))

/-- Modelled from the spec: the volume claim built by `k8sutil.NewVolumeClaimProvider`,
not in the source files, recording name, storage class and size. -/
structure VolumeClaim where
  Name : String
  VolumeType : String
  VolumeSize : String
  deriving DecidableEq, Repr

/-- Modelled from the spec: `k8sutil.NewVolumeClaimProvider(name, volumeType, size)`. -/
def NewVolumeClaimProvider (name volumeType size : String) : VolumeClaim :=
  { Name := name, VolumeType := volumeType, VolumeSize := size }

/-- The `corev1.VolumeMount` fields that the source sets. -/
structure VolumeMount where
  Name : String
  MountPath : String
  deriving DecidableEq, Repr

/-- Modelled from the spec: environment variables as built by `k8sutil.NewEnvFromSecret`
and `k8sutil.NewEnvFromField`, which are not in the source files. -/
inductive EnvVar
  | fromSecret (name secretName key : String)
  | fromField (name fieldPath : String)
  deriving DecidableEq, Repr

/-- Modelled from the spec: `k8sutil.NewEnvFromSecret`. -/
def NewEnvFromSecret (name secretName key : String) : EnvVar :=
  EnvVar.fromSecret name secretName key

/-- Modelled from the spec: `k8sutil.NewEnvFromField`. -/
def NewEnvFromField (name fieldPath : String) : EnvVar :=
  EnvVar.fromField name fieldPath

/-- Modelled from the spec: the anti-affinity built by `k8sutil.NewAntiAffinity`, not in the
source files, recording the namespaces and the label selectors it is computed from. -/
structure Affinity where
  namespaces : List String
  labelSelectors : List (LabelKey × String)
  deriving DecidableEq, Repr

/-- Modelled from the spec: `k8sutil.NewAntiAffinity(namespaces, labelSelectors)`. -/
def NewAntiAffinity (namespaces : List String) (labelSelectors : List (LabelKey × String)) :
    Affinity :=
  { namespaces := namespaces, labelSelectors := labelSelectors }

/-- Modelled from the spec: the pod security context; the value returned by
`k8sutil.GetDefaultSecurityContext` is not in the source files and is kept symbolic. -/
inductive SecurityContext
  | defaultSecurityContext
  deriving DecidableEq, Repr

/-- Modelled from the spec: `k8sutil.GetDefaultSecurityContext()`. -/
def GetDefaultSecurityContext : SecurityContext :=
  SecurityContext.defaultSecurityContext

/-- Modelled from the spec: the container specification `k8sutil.Container`, whose
declaration is not in the source files; the fields are those the two source files
assign, plus the template fields the spec lists (environment, probes). -/
structure Container where
  Name : String := ""
  Image : String := ""
  ImageTag : String := ""
  ImagePullPolicy : Option PullPolicy := none
  Resources : ResourceRequirements := {}
  Args : List String := []
  Env : List EnvVar := []
  Ports : List ContainerPort := []
  ServicePorts : List ServicePort := []
  MonitorPorts : List Endpoint := []
  VolumeClaims : List VolumeClaim := []
  VolumeMounts : List VolumeMount := []
  LivenessProbe : Option Probe := none
  ReadinessProbe : Option Probe := none
  deriving DecidableEq, Repr

/-- Modelled from the spec: the service descriptor `k8sutil.DeploymentGenericConfig`, whose
declaration is not in the source files; the fields are those the two source files
assign, plus the sidecar container list. -/
structure DeploymentGenericConfig where
  Name : String := ""
  Namespace : String := ""
  Image : String := ""
  ImageTag : String := ""
  ImagePullPolicy : Option PullPolicy := none
  CommonLabels : List (LabelKey × String) := []
  Replicas : Int := 0
  Env : List EnvVar := []
  ContainerResources : ResourceRequirements := {}
  Affinity : Option Affinity := none
  EnableServiceMonitor : Bool := false
  LivenessProbe : Option Probe := none
  ReadinessProbe : Option Probe := none
  TerminationGracePeriodSeconds : Int := 0
  SecurityContext : Option SecurityContext := none
  ConfigMaps : List (String × List (String × String)) := []
  Secrets : List (String × List (String × List Nat)) := []
  Sidecars : List Container := []
  deriving DecidableEq, Repr

/-- Modelled from the spec: `DeploymentGenericConfig.ToContainer()`, not in the source
files: the primary container template of the descriptor (image reference, pull policy,
resources, environment, probes). It declares no name, arguments, ports, monitoring
endpoints or volumes; the caller adds those. -/
def DeploymentGenericConfig.ToContainer (d : DeploymentGenericConfig) : Container :=
  { Image := d.Image
    ImageTag := d.ImageTag
    ImagePullPolicy := d.ImagePullPolicy
    Resources := d.ContainerResources
    Env := d.Env
    LivenessProbe := d.LivenessProbe
    ReadinessProbe := d.ReadinessProbe }

/-- Service port names of the containers that synthesis merges: the primary container, then
the sidecars of the descriptor. -/
def DeploymentGenericConfig.mergedServicePortNames (d : DeploymentGenericConfig)
    (container : Container) : List String :=
  (container :: d.Sidecars).flatMap (fun k => k.ServicePorts.map (fun p => p.Name))

/-- Modelled from the spec: the failure of `GenerateObjectsStatefulSet`, not in the source
files, when it assembles the service: "unions the ports of every container ...; port
names must be unique across the merged set — a name collision between primary and sidecar
ports is a configuration error". The generated objects are not modelled: on success the
result is the list of containers merged into the pod template. -/
def DeploymentGenericConfig.GenerateObjectsStatefulSet (d : DeploymentGenericConfig)
    (container : Container) : Except Failure (List Container) :=
  if (d.mergedServicePortNames container).Nodup then Except.ok (container :: d.Sidecars)
  else Except.error (Failure.panicMsg "duplicate port name")

end k8sutil

/-! ## Package `cmdoption` -/

namespace cmdopt

/-- Value kinds that occur in the typed fields of `MemcachedOptions`. -/
inductive OptValue
  | int (n : Int)
  | str (s : String)
  | bool (b : Bool)
  deriving DecidableEq, Repr

/-- One struct field as the serializer sees it: the declared name, the text of its `opt`
tag, and the value it holds. -/
structure OptField where
  declared : String
  tag : String
  value : OptValue
  deriving DecidableEq, Repr

/-- Split of a character list at every comma. -/
def splitCommas : List Char → List (List Char)
  | [] => [[]]
  | c :: rest =>
    if c = ',' then [] :: splitCommas rest
    else
      match splitCommas rest with
      | [] => [[c]]
      | h :: t => (c :: h) :: t

/-- Modelled from the spec: the syntax of an `opt` tag as the struct declarations use it,
the flag name followed by comma-separated modifiers (`noval`, `single-hyphen`). -/
def tagParts (tag : String) : List String :=
  (splitCommas tag.toList).map String.mk

/-- Flag name of an `opt` tag: the text before the first comma. -/
def tagFlag (tag : String) : String :=
  (tagParts tag).headD ""

/-- Modifiers of an `opt` tag: the comma-separated words after the flag name. -/
def tagModifiers (tag : String) : List String :=
  (tagParts tag).tail

/-- Flag name of a field. -/
def OptField.flag (f : OptField) : String :=
  tagFlag f.tag

/-- Modifiers of a field. -/
def OptField.modifiers (f : OptField) : List String :=
  tagModifiers f.tag

/-- Modelled from the spec: the embedded `cmdopt.ExtraOpts`, whose declaration is not in
the source files: "an open-ended ordered mapping of flag name → value(s)", in insertion
order. -/
structure ExtraOpts where
  entries : List (String × String) := []
  deriving DecidableEq, Repr

/-- Zero-value test of the spec: "empty string, zero number, false boolean". -/
def OptValue.isZero : OptValue → Bool
  | OptValue.int n => n == 0
  | OptValue.str s => s == ""
  | OptValue.bool b => !b

/-- Textual form of a value. -/
def OptValue.text : OptValue → String
  | OptValue.int n => fmtInt n
  | OptValue.str s => s
  | OptValue.bool b => if b then "true" else "false"

/-- Token prefix: `-` for a field tagged `single-hyphen`, `--` otherwise. -/
def hyphens (f : OptField) : String :=
  if "single-hyphen" ∈ f.modifiers then "-" else "--"

/-- Modelled from the spec: a field is a value-less presence flag when it is boolean or its
tag carries `noval`. Spec 4.1: "Presence-style (no-value) flags emit only the flag token
when true/non-zero, never a value token"; spec 8, example 2: a record with `Verbose=true`,
`VeryVerbose=true` "produces tokens ending in `..., "--verbose", "-vv"` with no values
attached". -/
def OptField.isPresence (f : OptField) : Bool :=
  match f.value with
  | OptValue.bool _ => true
  | _ => decide ("noval" ∈ f.modifiers)

/-- Modelled from the spec: the tokens of one typed field. A field at its zero value is
skipped; a presence flag emits only the flag token; a valued field emits the token
`--flag-name=value`, or for a single-prefix flag the token `-short,value` (spec 6: "format
is `--flag-name=value`, `--flag-name` (no-value), or `-short,value` for single-prefix
flags"). -/
def renderField (f : OptField) : List String :=
  if f.value.isZero then []
  else if f.isPresence then [hyphens f ++ f.flag]
  else if "single-hyphen" ∈ f.modifiers then [hyphens f ++ f.flag ++ "," ++ f.value.text]
  else [hyphens f ++ f.flag ++ "=" ++ f.value.text]

/-- Modelled from the spec: the token of one extra option, `--name=value`, or bare
`--name` when the value is empty. -/
def renderExtra (e : String × String) : String :=
  if e.2 == "" then "--" ++ e.1 else "--" ++ e.1 ++ "=" ++ e.2

/-- Modelled from the spec: `cmdopt.GetOpts`, not in the source files. Typed fields in
declaration order, then the extra options in insertion order ("every entry appears in the
output, in insertion order, strictly after all typed fields"). -/
def GetOpts (fields : List OptField) (extra : ExtraOpts) : List String :=
  fields.flatMap renderField ++ extra.entries.map renderExtra

end cmdopt

/-! ## Package `memcached` -/

namespace memcached

open k8sutil

def defaultPort : Int := 11211

def dataVolumeName : String := "data"

def exporterDefaultPort : Int := 9150

/-- Options for the memcached container. -/
structure MemcachedOptions where
  ConnLimit : Int := 0
  ListenBacklog : Int := 0
  MaxItemSize : String := ""
  MaxReqsPerEvent : Int := 0
  MemoryLimit : Int := 0
  Port : Int := 0
  Threads : Int := 0
  Verbose : Bool := false
  VeryVerbose : Bool := false
  ExtraOpts : cmdopt.ExtraOpts := {}
  deriving DecidableEq, Repr

/-- The typed fields of `MemcachedOptions` in declaration order, each with its `opt` tag
as written in the struct declaration. -/
def MemcachedOptions.fields (o : MemcachedOptions) : List cmdopt.OptField :=
  [ { declared := "ConnLimit", tag := "conn-limit",
      value := cmdopt.OptValue.int o.ConnLimit },
    { declared := "ListenBacklog", tag := "listen-backlog",
      value := cmdopt.OptValue.int o.ListenBacklog },
    { declared := "MaxItemSize", tag := "max-item-size",
      value := cmdopt.OptValue.str o.MaxItemSize },
    { declared := "MaxReqsPerEvent", tag := "max-reqs-per-event",
      value := cmdopt.OptValue.int o.MaxReqsPerEvent },
    { declared := "MemoryLimit", tag := "memory-limit",
      value := cmdopt.OptValue.int o.MemoryLimit },
    { declared := "Port", tag := "port",
      value := cmdopt.OptValue.int o.Port },
    { declared := "Threads", tag := "threads",
      value := cmdopt.OptValue.int o.Threads },
    { declared := "Verbose", tag := "verbose",
      value := cmdopt.OptValue.bool o.Verbose },
    { declared := "VeryVerbose", tag := "vv,single-hyphen",
      value := cmdopt.OptValue.bool o.VeryVerbose } ]

/-- Serialization `cmdopt.GetOpts(s.Options)` of a memcached options record. -/
def MemcachedOptions.getOpts (o : MemcachedOptions) : List String :=
  cmdopt.GetOpts o.fields o.ExtraOpts

/-- The memcached deployment. -/
structure MemcachedDeployment extends DeploymentGenericConfig where
  Options : Option MemcachedOptions := none
  ExporterImage : String := ""
  ExporterImageTag : String := ""
  deriving DecidableEq, Repr

/-- A new memcached deployment with default values. -/
def NewMemcached : MemcachedDeployment :=
  let options : MemcachedOptions := {}
  let commonLabels : List (LabelKey × String) :=
    [ (LabelKey.NameLabel, "memcached"),
      (LabelKey.InstanceLabel, "observatorium"),
      (LabelKey.PartOfLabel, "observatorium"),
      (LabelKey.ComponentLabel, "memcached") ]
  let labelSelectors : List (LabelKey × String) :=
    [ (LabelKey.NameLabel, labelAt commonLabels LabelKey.NameLabel),
      (LabelKey.InstanceLabel, labelAt commonLabels LabelKey.InstanceLabel) ]
  let genericDeployment : DeploymentGenericConfig :=
    { Name := "memcached"
      Image := "docker.io/memcached"
      ImageTag := "latest"
      ImagePullPolicy := some PullPolicy.PullIfNotPresent
      CommonLabels := commonLabels
      Replicas := 1
      Env := []
      ContainerResources := NewResourcesRequirements "500m" "3" "2Gi" "3Gi"
      Affinity := some (NewAntiAffinity [] labelSelectors)
      EnableServiceMonitor := true
      TerminationGracePeriodSeconds := 120
      SecurityContext := some GetDefaultSecurityContext
      ConfigMaps := []
      Secrets := [] }
  { toDeploymentGenericConfig := genericDeployment
    Options := some options
    ExporterImage := "quay.io/prometheus/memcached-exporter"
    ExporterImageTag := "latest" }

/-- The listening port `httpPort` that `makeContainer` resolves from an options record. -/
def resolvedPort (o : MemcachedOptions) : Int :=
  if o.Port ≠ 0 then o.Port else defaultPort

/-- Method `makeContainer`. A nil `Options` is first replaced in the receiver by an empty
record; the result is the receiver's new state and the primary container. -/
def makeContainer (s : MemcachedDeployment) : MemcachedDeployment × Container :=
  let options : MemcachedOptions :=
    match s.Options with
    | none => {}
    | some o => o
  let s : MemcachedDeployment := { s with Options := some options }
  let httpPort := resolvedPort options
  let ret := s.ToContainer
  let ret : Container :=
    { ret with
      Name := "memcached"
      Args := options.getOpts
      Ports :=
        [ { Name := "client", ContainerPort := toInt32 httpPort,
            Protocol := Protocol.ProtocolTCP } ]
      ServicePorts := [ NewServicePort "client" httpPort httpPort ] }
  (s, ret)

/-- Method `makeExporterContainer`. It reads `s.Options.Port` through the pointer, which
aborts when `Options` is nil. -/
def makeExporterContainer (s : MemcachedDeployment) : Except Failure Container :=
  match s.Options with
  | none => Except.error Failure.nilDereference
  | some options =>
    Except.ok
      { Name := "memcached-exporter"
        Image := s.ExporterImage
        ImageTag := s.ExporterImageTag
        ImagePullPolicy := some PullPolicy.PullIfNotPresent
        Resources := NewResourcesRequirements "50m" "200m" "50Mi" "200Mi"
        Args :=
          [ "--memcached.address=localhost:" ++ fmtInt options.Port,
            "--web.listen-address=:" ++ fmtInt exporterDefaultPort ]
        Ports :=
          [ { Name := "metrics", ContainerPort := exporterDefaultPort,
              Protocol := Protocol.ProtocolTCP } ]
        ServicePorts :=
          [ NewServicePort "metrics" exporterDefaultPort exporterDefaultPort ]
        MonitorPorts :=
          [ { Port := "metrics", RelabelConfigs := GetDefaultServiceMonitorRelabelConfig } ] }

/-- First part of method `Manifests`, up to the call of `GenerateObjectsDeployment`: the
exporter is appended to the receiver's `Sidecars` when the service monitor is enabled,
then the primary container is built. The result is the receiver's new state and the
primary container; synthesis receives that container and the receiver's sidecars. -/
def synthesisInput (s : MemcachedDeployment) :
    Except Failure (MemcachedDeployment × Container) := do
  let s ←
    if s.EnableServiceMonitor then do
      let exporter ← makeExporterContainer s
      pure { s with Sidecars := s.Sidecars ++ [exporter] }
    else
      pure s
  pure (makeContainer s)

/-- The container list that synthesis merges: the primary container, then the sidecars. -/
def containersOf (r : MemcachedDeployment × Container) : List Container :=
  r.2 :: r.1.Sidecars

/-- Method `Manifests`. The synthesis `GenerateObjectsDeployment` and the step that makes the
generated service headless are functions of `k8sutil` that are not in the source files;
they are parameters. The result is the receiver's new state and the object map. -/
def Manifests {ObjectMap : Type} (GenerateObjectsDeployment :
    DeploymentGenericConfig → Container → ObjectMap) (setHeadless : ObjectMap → ObjectMap)
    (s : MemcachedDeployment) : Except Failure (MemcachedDeployment × ObjectMap) := do
  let r ← synthesisInput s
  let ret := GenerateObjectsDeployment r.1.toDeploymentGenericConfig r.2
  pure (r.1, setHeadless ret)

end memcached

/-! ## Package `compactor` -/

namespace compactor

open k8sutil

def dataVolumeName : String := "data"

def defaultHTTPPort : Int := 10902

/-- Modelled from the spec: `thanostime.TimeOrDurationValue`, whose declaration is not in
the source files; kept as its textual form. -/
structure TimeOrDurationValue where
  text : String
  deriving DecidableEq, Repr

/-- Options of the compactor. Durations are nanosecond counts; `log.LogFormat` and
`log.LogLevel` are string types. -/
structure CompactorOptions where
  BlockFilesConcurrency : Int := 0
  BlockMetaFetchConcurrency : Int := 0
  BlockViewerGlobalSyncBlockInterval : Int := 0
  BlockViewerGlobalSyncBlockTimeout : Int := 0
  BucketWebLabel : String := ""
  CompactBlocksFetchConcurrency : Int := 0
  CompactCleanupInterval : Int := 0
  CompactConcurrency : Int := 0
  CompactProgressInterval : Int := 0
  ConsistencyDelay : Int := 0
  DataDir : String := ""
  DeduplicationFunc : String := ""
  DeduplicationReplicaLabel : String := ""
  DeleteDelay : Int := 0
  DownsampleConcurrency : Int := 0
  DownsamplingDisable : Bool := false
  HashFunc : String := ""
  HttpAddress : Option net.TCPAddr := none
  HttpGracePeriod : Int := 0
  HttpConfig : String := ""
  LogFormat : String := ""
  LogLevel : String := ""
  MaxTime : Option TimeOrDurationValue := none
  MinTime : Option TimeOrDurationValue := none
  ObjstoreConfig : String := ""
  ObjstoreConfigFile : String := ""
  RetentionResolution1h : Int := 0
  RetentionResolution5m : Int := 0
  RetentionResolutionRaw : Int := 0
  SelectorRelabelConfig : String := ""
  SelectorRelabelConfigFile : String := ""
  TracingConfig : String := ""
  TracingConfigFile : String := ""
  Version : Bool := false
  Wait : Bool := false
  WaitInterval : Int := 0
  WebDisable : Bool := false
  WebDisableCors : Bool := false
  WebExternalPrefix : String := ""
  WebPrefixHeader : String := ""
  WebRoutePrefix : String := ""
  ExtraOpts : cmdopt.ExtraOpts := {}
  deriving DecidableEq, Repr

/-- The typed fields of `CompactorOptions` in declaration order: declared name and the text
of the `opt` tag. -/
def CompactorOptions.optTags : List (String × String) :=
  [ ("BlockFilesConcurrency", "block-files-concurrency"),
    ("BlockMetaFetchConcurrency", "block-meta-fetch-concurrency"),
    ("BlockViewerGlobalSyncBlockInterval", "block-viewer.global.sync-block-interval"),
    ("BlockViewerGlobalSyncBlockTimeout", "block-viewer.global.sync-block-timeout"),
    ("BucketWebLabel", "bucket-web-label"),
    ("CompactBlocksFetchConcurrency", "compact.blocks-fetch-concurrency"),
    ("CompactCleanupInterval", "compact.cleanup-interval"),
    ("CompactConcurrency", "compact.concurrency"),
    ("CompactProgressInterval", "compact.progress-interval"),
    ("ConsistencyDelay", "consistency-delay"),
    ("DataDir", "data-dir"),
    ("DeduplicationFunc", "deduplication.func"),
    ("DeduplicationReplicaLabel", "deduplication.replica-label"),
    ("DeleteDelay", "delete-delay"),
    ("DownsampleConcurrency", "downsample.concurrency"),
    ("DownsamplingDisable", "downsampling.disable"),
    ("HashFunc", "hash-func"),
    ("HttpAddress", "http-address"),
    ("HttpGracePeriod", "http-grace-period"),
    ("HttpConfig", "http.config"),
    ("LogFormat", "log.format"),
    ("LogLevel", "log.level"),
    ("MaxTime", "max-time"),
    ("MinTime", "min-time"),
    ("ObjstoreConfig", "objstore.config"),
    ("ObjstoreConfigFile", "objstore.config-file"),
    ("RetentionResolution1h", "retention.resolution-1h"),
    ("RetentionResolution5m", "retention.resolution-5m"),
    ("RetentionResolutionRaw", "retention.resolution-raw"),
    ("SelectorRelabelConfig", "selector.relabel-config"),
    ("SelectorRelabelConfigFile", "selector.relabel-config-file"),
    ("TracingConfig", "tracing.config"),
    ("TracingConfigFile", "tracing.config-file"),
    ("Version", "version,noval"),
    ("Wait", "wait,noval"),
    ("WaitInterval", "wait-interval"),
    ("WebDisable", "web.disable"),
    ("WebDisableCors", "web.disable-cors"),
    ("WebExternalPrefix", "web.external-prefix"),
    ("WebPrefixHeader", "web.prefix-header"),
    ("WebRoutePrefix", "web.route-prefix") ]

/-- The compactor stateful set descriptor. -/
structure CompactorStatefulSet extends DeploymentGenericConfig where
  options : Option CompactorOptions := none
  VolumeType : String := ""
  VolumeSize : String := ""
  deriving DecidableEq, Repr

def NewDefaultOptions : CompactorOptions :=
  { ObjstoreConfig := "$(OBJSTORE_CONFIG)"
    Wait := true
    LogLevel := "warn"
    LogFormat := "logfmt"
    DataDir := "/var/thanos/compactor"
    RetentionResolutionRaw := time.Hour * 24 * 365
    DeleteDelay := time.Hour * 24 * 2
    CompactConcurrency := 1
    DownsampleConcurrency := 1
    DeduplicationReplicaLabel := "replica" }

/-- A new compactor stateful set with default values; nil options are replaced by
`NewDefaultOptions`. -/
def NewCompactor (opts : Option CompactorOptions) (nspace imageTag : String) :
    CompactorStatefulSet :=
  let opts : CompactorOptions :=
    match opts with
    | none => NewDefaultOptions
    | some o => o
  let commonLabels : List (LabelKey × String) :=
    [ (LabelKey.NameLabel, "thanos-compact"),
      (LabelKey.InstanceLabel, "observatorium"),
      (LabelKey.PartOfLabel, "observatorium"),
      (LabelKey.ComponentLabel, "database-compactor"),
      (LabelKey.VersionLabel, imageTag) ]
  let labelSelectors : List (LabelKey × String) :=
    [ (LabelKey.NameLabel, labelAt commonLabels LabelKey.NameLabel),
      (LabelKey.InstanceLabel, labelAt commonLabels LabelKey.InstanceLabel) ]
  let probePort := GetPortOrDefault defaultHTTPPort opts.HttpAddress
  { options := some opts
    toDeploymentGenericConfig :=
      { Image := "quay.io/thanos/thanos"
        ImageTag := imageTag
        ImagePullPolicy := some PullPolicy.PullIfNotPresent
        Name := "observatorium-thanos-compact"
        Namespace := nspace
        CommonLabels := commonLabels
        Replicas := 1
        ContainerResources := NewResourcesRequirements "2" "3" "2000Mi" "3000Mi"
        Affinity := some (NewAntiAffinity [] labelSelectors)
        EnableServiceMonitor := true
        LivenessProbe := some (NewProbe "/-/healthy" probePort
          { FailureThreshold := 4, PeriodSeconds := 30 })
        ReadinessProbe := some (NewProbe "/-/ready" probePort
          { FailureThreshold := 20, PeriodSeconds := 5 })
        TerminationGracePeriodSeconds := 120
        Env :=
          [ NewEnvFromSecret "OBJSTORE_CONFIG" "objectStore-secret" "thanos.yaml",
            NewEnvFromField "HOST_IP_ADDRESS" "status.hostIP" ]
        ConfigMaps := []
        Secrets := [] }
    VolumeSize := "50Gi" }

/-- First part of method `makeContainer` (lines 159-166): the HTTP port is resolved, both
probes are checked against it, and an empty data directory is a panic. The result is the
options record read through the pointer and the resolved port. -/
def validate (c : CompactorStatefulSet) : Except Failure (CompactorOptions × Int) :=
  match c.options with
  | none => Except.error Failure.nilDereference
  | some options => do
    let httpPort := GetPortOrDefault defaultHTTPPort options.HttpAddress
    CheckProbePort httpPort c.LivenessProbe
    CheckProbePort httpPort c.ReadinessProbe
    if options.DataDir = "" then
      throw (Failure.panicMsg "data directory is not specified for the statefulset.")
    pure (options, httpPort)

/-- Second part of method `makeContainer` (lines 168-197): the container built from the
template once the checks have passed. The serializer `cmdopt.GetOpts` is a parameter: the
canonical textual forms of the duration, address and time values of `CompactorOptions`
are outside the source files. -/
def buildContainer (GetOpts : CompactorOptions → List String) (c : CompactorStatefulSet)
    (options : CompactorOptions) (httpPort : Int) : Container :=
  let ret := c.ToContainer
  { ret with
    Name := "thanos"
    Args := "compact" :: GetOpts options
    Ports :=
      [ { Name := "http", ContainerPort := toInt32 httpPort,
          Protocol := Protocol.ProtocolTCP } ]
    ServicePorts := [ NewServicePort "http" httpPort httpPort ]
    MonitorPorts :=
      [ { Port := "http", RelabelConfigs := GetDefaultServiceMonitorRelabelConfig } ]
    VolumeClaims := [ NewVolumeClaimProvider dataVolumeName c.VolumeType c.VolumeSize ]
    VolumeMounts := [ { Name := dataVolumeName, MountPath := options.DataDir } ] }

/-- Method `makeContainer`: the checks, then the container. -/
def makeContainer (GetOpts : CompactorOptions → List String) (c : CompactorStatefulSet) :
    Except Failure Container := do
  let checked ← validate c
  pure (buildContainer GetOpts c checked.1 checked.2)

/-- Method `Manifests`. The synthesis `GenerateObjectsStatefulSet` is a function of `k8sutil`
that is not in the source files; it is a parameter that may itself abort (the spec gives
synthesis its own configuration errors), called only after `makeContainer` has returned. -/
def Manifests {ObjectMap : Type} (GetOpts : CompactorOptions → List String)
    (GenerateObjectsStatefulSet :
      DeploymentGenericConfig → Container → Except Failure ObjectMap)
    (c : CompactorStatefulSet) : Except Failure ObjectMap := do
  let container ← makeContainer GetOpts c
  GenerateObjectsStatefulSet c.toDeploymentGenericConfig container

end compactor

/-! ## Properties of the integer conversion -/

/-- The conversion `int32(n)` is the identity on values that fit in 32 bits. -/
theorem toInt32_of_fits (n : Int) (hlo : -2147483648 ≤ n) (hhi : n < 2147483648) :
    toInt32 n = n := by
  unfold toInt32
  omega

/-- The conversion `int32(n)` always lands in the 32-bit range. -/
theorem toInt32_range (n : Int) : -2147483648 ≤ toInt32 n ∧ toInt32 n < 2147483648 := by
  unfold toInt32
  omega

/-! ## Properties of the memcached deployment -/

namespace memcached

open k8sutil

/-- The resolved port is `Port` when non-zero and 11211 otherwise. -/
theorem resolvedPort_eq (o : MemcachedOptions) :
    resolvedPort o = if o.Port = 0 then 11211 else o.Port := by
  unfold resolvedPort defaultPort
  by_cases h : o.Port = 0 <;> simp [h]

/-- The primary container declares no monitor port, and building it leaves the receiver's
sidecar list as it was. -/
theorem makeContainer_frame (s : MemcachedDeployment) :
    (makeContainer s).1.Sidecars = s.Sidecars ∧ (makeContainer s).2.MonitorPorts = [] :=
  ⟨rfl, rfl⟩

/-- Ports of the primary container built from an options record. -/
theorem makeContainer_ports_of_some (s : MemcachedDeployment) (o : MemcachedOptions)
    (hs : s.Options = some o) :
    (makeContainer s).2.Ports =
        [ { Name := "client", ContainerPort := toInt32 (resolvedPort o),
            Protocol := Protocol.ProtocolTCP } ] ∧
      (makeContainer s).2.ServicePorts =
        [ { Name := "client", Port := toInt32 (resolvedPort o),
            TargetPort := toInt32 (resolvedPort o) } ] ∧
      (makeContainer s).2.MonitorPorts = [] ∧
      (makeContainer s).1.Sidecars = s.Sidecars := by
  simp [makeContainer, hs, NewServicePort, DeploymentGenericConfig.ToContainer]

/-- C1 (as amended): for every options record whose `Port` fits in 32 bits (every TCP port
does), `makeContainer` resolves the listening port to `Port` when it is non-zero and to
11211 when it is 0, and the container port named "client" and the service port named
"client" (port and target port) all equal that resolved port. -/
theorem makeContainer_client_ports_eq_resolved (s : MemcachedDeployment)
    (o : MemcachedOptions) (hs : s.Options = some o)
    (hlo : -2147483648 ≤ o.Port) (hhi : o.Port < 2147483648) :
    resolvedPort o = (if o.Port = 0 then 11211 else o.Port) ∧
      (makeContainer s).2.Ports =
        [ { Name := "client", ContainerPort := resolvedPort o,
            Protocol := Protocol.ProtocolTCP } ] ∧
      (makeContainer s).2.ServicePorts =
        [ { Name := "client", Port := resolvedPort o, TargetPort := resolvedPort o } ] := by
  have hr := resolvedPort_eq o
  have hp := makeContainer_ports_of_some s o hs
  have hfit : toInt32 (resolvedPort o) = resolvedPort o := by
    apply toInt32_of_fits
    · rw [hr]; split <;> omega
    · rw [hr]; split <;> omega
  refine ⟨hr, ?_, ?_⟩
  · rw [hp.1, hfit]
  · rw [hp.2.1, hfit]

/-- Witness for C1: the default deployment has `Port = 0`, and both generated ports
are 11211. -/
theorem makeContainer_client_ports_eq_resolved_witness :
    NewMemcached.Options = some {} ∧
      (-2147483648 : Int) ≤ ({} : MemcachedOptions).Port ∧
      ({} : MemcachedOptions).Port < 2147483648 ∧
      resolvedPort {} = 11211 ∧
      (makeContainer NewMemcached).2.Ports =
        [ { Name := "client", ContainerPort := 11211, Protocol := Protocol.ProtocolTCP } ] ∧
      (makeContainer NewMemcached).2.ServicePorts =
        [ { Name := "client", Port := 11211, TargetPort := 11211 } ] :=
  ⟨rfl, by decide, by decide,
    (makeContainer_client_ports_eq_resolved NewMemcached {} rfl (by decide) (by decide)).1,
    (makeContainer_client_ports_eq_resolved NewMemcached {} rfl (by decide) (by decide)).2.1,
    (makeContainer_client_ports_eq_resolved NewMemcached {} rfl (by decide) (by decide)).2.2⟩

/-- Counterexample to C1 as stated: with `Port = 4294967376` (2^32 + 80) the resolved port
is 4294967376, while the container port and the service port (port and target port) hold
32 bits and are 80. -/
theorem makeContainer_client_port_truncated :
    resolvedPort { Port := 4294967376 } = 4294967376 ∧
      (makeContainer { Options := some { Port := 4294967376 } }).2.Ports =
        [ { Name := "client", ContainerPort := 80, Protocol := Protocol.ProtocolTCP } ] ∧
      (makeContainer { Options := some { Port := 4294967376 } }).2.ServicePorts =
        [ { Name := "client", Port := 80, TargetPort := 80 } ] ∧
      ¬ ∀ (s : MemcachedDeployment) (o : MemcachedOptions), s.Options = some o →
          (makeContainer s).2.Ports =
            [ { Name := "client", ContainerPort := resolvedPort o,
                Protocol := Protocol.ProtocolTCP } ] := by
  refine ⟨by decide, by decide, by decide, ?_⟩
  intro h
  have h1 := h { Options := some { Port := 4294967376 } } { Port := 4294967376 } rfl
  revert h1
  decide

/-- C2 (evaluation at the failing input): on the default deployment (`Port = 0`) the
primary container declares client port 11211, while the exporter is pointed at
`localhost:0`, the raw `Port` field, and not at `localhost:11211`. -/
theorem makeExporterContainer_uses_raw_port :
    (makeContainer NewMemcached).2.Ports.map (fun p => (p.Name, p.ContainerPort)) =
        [("client", 11211)] ∧
      (makeExporterContainer NewMemcached).toOption.map (fun e => e.Args) =
        some ["--memcached.address=localhost:0", "--web.listen-address=:9150"] ∧
      (makeExporterContainer NewMemcached).toOption.map
        (fun e => decide ("--memcached.address=localhost:11211" ∈ e.Args)) = some false := by
  refine ⟨by decide, by decide, by decide⟩

/-- The exporter's address argument is built from the raw `Port` field for every record. -/
theorem makeExporterContainer_args (s : MemcachedDeployment) (o : MemcachedOptions)
    (hs : s.Options = some o) :
    ∃ e, makeExporterContainer s = Except.ok e ∧
      e.Args = [ "--memcached.address=localhost:" ++ fmtInt o.Port,
                 "--web.listen-address=:9150" ] ∧
      e.MonitorPorts =
        [ { Port := "metrics", RelabelConfigs := RelabelConfigs.defaultServiceMonitor } ] ∧
      e.Ports =
        [ { Name := "metrics", ContainerPort := 9150, Protocol := Protocol.ProtocolTCP } ] ∧
      e.ServicePorts = [ { Name := "metrics", Port := 9150, TargetPort := 9150 } ] := by
  unfold makeExporterContainer
  rw [hs]
  exact ⟨_, rfl, rfl, rfl, rfl, rfl⟩

/-- For a non-zero `Port` the exporter's address is the port that `makeContainer` resolves;
the two differ exactly on `Port = 0`. -/
theorem makeExporterContainer_address_of_port_ne_zero (s : MemcachedDeployment)
    (o : MemcachedOptions) (hs : s.Options = some o) (hp : o.Port ≠ 0) :
    ∃ e, makeExporterContainer s = Except.ok e ∧
      e.Args.head? = some ("--memcached.address=localhost:" ++ fmtInt (resolvedPort o)) := by
  obtain ⟨e, he, hargs, _⟩ := makeExporterContainer_args s o hs
  refine ⟨e, he, ?_⟩
  rw [hargs, resolvedPort_eq, if_neg hp]
  rfl

/-- With the service monitor disabled, `Manifests` hands over the primary container alone
and leaves the receiver's sidecar list as it was. -/
theorem synthesisInput_of_monitor_disabled (s : MemcachedDeployment)
    (hm : s.EnableServiceMonitor = false) :
    synthesisInput s = Except.ok (makeContainer s) ∧
      (makeContainer s).1.Sidecars = s.Sidecars := by
  refine ⟨?_, rfl⟩
  simp only [synthesisInput, hm]
  rfl

/-- The nil guard of `makeContainer`: a nil `Options` builds the container of the empty
record, with client port 11211. -/
theorem makeContainer_of_nil_options (s : MemcachedDeployment) (hs : s.Options = none) :
    makeContainer s = makeContainer { s with Options := some {} } ∧
      (makeContainer s).1.Options = some {} ∧
      (makeContainer s).2.Ports =
        [ { Name := "client", ContainerPort := 11211, Protocol := Protocol.ProtocolTCP } ] := by
  refine ⟨?_, ?_, ?_⟩
  · simp only [makeContainer, hs]
  · simp only [makeContainer, hs]
  · simp only [makeContainer, hs]
    rfl

/-- C5 (evaluation at the failing input): with the identity synthesis, which returns the
descriptor and the primary container it is handed, a first `Manifests` call on the default
deployment returns a receiver with one exporter sidecar where there was none, and a second
call on that receiver hands two exporter sidecars to synthesis. -/
theorem Manifests_appends_exporter_each_call :
    NewMemcached.Sidecars = [] ∧
      ∃ r1 r2,
        Manifests Prod.mk id NewMemcached = Except.ok r1 ∧
        Manifests Prod.mk id r1.1 = Except.ok r2 ∧
        r1.1.Sidecars.map (fun k => k.Name) = ["memcached-exporter"] ∧
        r1.2.1.Sidecars.map (fun k => k.Name) = ["memcached-exporter"] ∧
        r2.1.Sidecars.map (fun k => k.Name) = ["memcached-exporter", "memcached-exporter"] ∧
        r2.2.1.Sidecars.map (fun k => k.Name) = ["memcached-exporter", "memcached-exporter"] ∧
        r1.2.1.Sidecars ≠ r2.2.1.Sidecars := by
  refine ⟨rfl, _, _, rfl, rfl, ?_, ?_, ?_, ?_, ?_⟩ <;> decide

/-- Tokens of the seven typed fields that precede `Verbose` in `MemcachedOptions`. -/
theorem getOpts_split (o : MemcachedOptions) :
    o.getOpts =
      (o.fields.take 7).flatMap cmdopt.renderField ++
        (cmdopt.renderField
            { declared := "Verbose", tag := "verbose",
              value := cmdopt.OptValue.bool o.Verbose } ++
          cmdopt.renderField
            { declared := "VeryVerbose", tag := "vv,single-hyphen",
              value := cmdopt.OptValue.bool o.VeryVerbose }) ++
        o.ExtraOpts.entries.map cmdopt.renderExtra := by
  simp [MemcachedOptions.getOpts, cmdopt.GetOpts, MemcachedOptions.fields, List.flatMap_cons]

/-- C6 (as amended): for every options record with `Verbose = true` and `VeryVerbose = true`,
the tokens of the typed fields end with exactly `--verbose`, `-vv`, neither with a value
attached, and the tokens of the extra options follow them; a record without extra options
serializes to a list that ends with `--verbose`, `-vv`. -/
theorem getOpts_verbose_flags (o : MemcachedOptions) (hv : o.Verbose = true)
    (hvv : o.VeryVerbose = true) :
    ∃ before,
      o.getOpts =
        before ++ ["--verbose", "-vv"] ++ o.ExtraOpts.entries.map cmdopt.renderExtra ∧
      (o.ExtraOpts.entries = [] → o.getOpts = before ++ ["--verbose", "-vv"]) := by
  have h := getOpts_split o
  rw [hv, hvv] at h
  have h8 : cmdopt.renderField
      { declared := "Verbose", tag := "verbose", value := cmdopt.OptValue.bool true } =
      ["--verbose"] := by decide
  have h9 : cmdopt.renderField
      { declared := "VeryVerbose", tag := "vv,single-hyphen",
        value := cmdopt.OptValue.bool true } = ["-vv"] := by decide
  rw [h8, h9] at h
  refine ⟨(o.fields.take 7).flatMap cmdopt.renderField, h, ?_⟩
  intro he
  rw [h, he]
  simp

/-- Witness for C6: the record with only `Verbose` and `VeryVerbose` set serializes to
`--verbose`, `-vv`. -/
theorem getOpts_verbose_flags_witness :
    ({ Verbose := true, VeryVerbose := true } : MemcachedOptions).Verbose = true ∧
      ({ Verbose := true, VeryVerbose := true } : MemcachedOptions).VeryVerbose = true ∧
      MemcachedOptions.getOpts { Verbose := true, VeryVerbose := true } =
        ["--verbose", "-vv"] ∧
      ∃ before,
        MemcachedOptions.getOpts { Verbose := true, VeryVerbose := true } =
          before ++ ["--verbose", "-vv"] ++
            ({ Verbose := true, VeryVerbose := true } :
              MemcachedOptions).ExtraOpts.entries.map cmdopt.renderExtra ∧
        ((({ Verbose := true, VeryVerbose := true } :
              MemcachedOptions).ExtraOpts.entries = []) →
          MemcachedOptions.getOpts { Verbose := true, VeryVerbose := true } =
            before ++ ["--verbose", "-vv"]) :=
  ⟨rfl, rfl, by decide,
    getOpts_verbose_flags { Verbose := true, VeryVerbose := true } rfl rfl⟩

/-- Counterexample to C6 as stated: a record with `Verbose = true`, `VeryVerbose = true` and
one extra option serializes to a list whose last token is the extra option, not `-vv`. -/
theorem getOpts_extra_option_last :
    MemcachedOptions.getOpts
        { Verbose := true, VeryVerbose := true,
          ExtraOpts := { entries := [("extended", "modern")] } } =
        ["--verbose", "-vv", "--extended=modern"] ∧
      (MemcachedOptions.getOpts
        { Verbose := true, VeryVerbose := true,
          ExtraOpts := { entries := [("extended", "modern")] } }).getLast? =
        some "--extended=modern" := by
  refine ⟨by decide, by decide⟩

/-- C8 (evaluation at the failing input): with nil `Options`, no sidecars and the service
monitor enabled, `Manifests` aborts in `makeExporterContainer` before the primary container
is built, so no container is handed to synthesis and no monitor port is declared. -/
theorem synthesisInput_nil_options_hands_nothing :
    synthesisInput { Options := none, Sidecars := [], EnableServiceMonitor := true } =
        Except.error Failure.nilDereference ∧
      ((synthesisInput { Options := none, Sidecars := [], EnableServiceMonitor := true
          }).toOption.map containersOf) = none := by
  exact ⟨rfl, rfl⟩

/-- Monitor ports of the containers handed to synthesis, for a deployment that has an
options record and no caller-supplied sidecars: none when the service monitor is disabled;
exactly the exporter's "metrics" endpoint with the default relabeling rules, on a port
(9150) the exporter exposes as container port and service port, when it is enabled. -/
theorem synthesisInput_monitor_ports (s : MemcachedDeployment) (o : MemcachedOptions)
    (hs : s.Options = some o) (hsc : s.Sidecars = []) :
    ∃ r, synthesisInput s = Except.ok r ∧
      (s.EnableServiceMonitor = false →
        containersOf r = [r.2] ∧ r.2.MonitorPorts = []) ∧
      (s.EnableServiceMonitor = true →
        ∃ e, containersOf r = [r.2, e] ∧ r.2.MonitorPorts = [] ∧
          e.Name = "memcached-exporter" ∧
          e.MonitorPorts =
            [ { Port := "metrics",
                RelabelConfigs := RelabelConfigs.defaultServiceMonitor } ] ∧
          e.Ports =
            [ { Name := "metrics", ContainerPort := 9150,
                Protocol := Protocol.ProtocolTCP } ] ∧
          e.ServicePorts = [ { Name := "metrics", Port := 9150, TargetPort := 9150 } ]) := by
  cases hm : s.EnableServiceMonitor with
  | false =>
    refine ⟨makeContainer s, ?_, ?_, by simp⟩
    · simp only [synthesisInput, hm]
      rfl
    · intro _
      refine ⟨?_, (makeContainer_frame s).2⟩
      unfold containersOf
      rw [(makeContainer_frame s).1, hsc]
  | true =>
    obtain ⟨e, he, _, hmon, hports, hsp⟩ := makeExporterContainer_args s o hs
    refine ⟨makeContainer { s with Sidecars := s.Sidecars ++ [e] }, ?_, by simp, ?_⟩
    · simp only [synthesisInput, hm, he]
      rfl
    · intro _
      have hf := makeContainer_frame { s with Sidecars := s.Sidecars ++ [e] }
      refine ⟨e, ?_, hf.2, ?_, hmon, hports, hsp⟩
      · unfold containersOf
        rw [hf.1]
        simp [hsc]
      · unfold makeExporterContainer at he
        rw [hs] at he
        cases he
        rfl

/-- C10 (evaluation at the failing input): with nil `Options` and the service monitor
enabled, `Manifests` aborts on a nil dereference whatever the synthesis is; with the
service monitor disabled the nil guard of `makeContainer` applies and the client port
is 11211. -/
theorem Manifests_nil_options_service_monitor_aborts :
    (∀ (ObjectMap : Type) (gen : DeploymentGenericConfig → Container → ObjectMap)
        (setHeadless : ObjectMap → ObjectMap),
        Manifests gen setHeadless { Options := none, EnableServiceMonitor := true } =
          Except.error Failure.nilDereference) ∧
      (Manifests Prod.mk id { Options := none, EnableServiceMonitor := false }).toOption.map
        (fun r => (r.1.Options, r.2.2.Ports.map (fun p => p.ContainerPort))) =
          some (some {}, [11211]) := by
  refine ⟨fun _ _ _ => rfl, by decide⟩

end memcached

/-! ## Properties of the compactor stateful set -/

namespace compactor

open k8sutil

/-- A probe check passes when the probe is undeclared or targets the given port. -/
theorem CheckProbePort_ok (port : Int) (probe : Option Probe)
    (h : ∀ p, probe = some p → p.Port = port) : CheckProbePort port probe = Except.ok () := by
  cases probe with
  | none => rfl
  | some p => simp [CheckProbePort, h p rfl]

/-- With passing probe checks and an empty data directory, the checks of `makeContainer`
abort with the data-directory message. -/
theorem validate_of_empty_dataDir (c : CompactorStatefulSet) (o : CompactorOptions)
    (ho : c.options = some o)
    (hl : ∀ p, c.LivenessProbe = some p →
      p.Port = GetPortOrDefault defaultHTTPPort o.HttpAddress)
    (hr : ∀ p, c.ReadinessProbe = some p →
      p.Port = GetPortOrDefault defaultHTTPPort o.HttpAddress)
    (hdir : o.DataDir = "") :
    validate c =
      Except.error (Failure.panicMsg "data directory is not specified for the statefulset.") := by
  unfold validate
  rw [ho]
  simp only [CheckProbePort_ok _ _ hl, CheckProbePort_ok _ _ hr, hdir]
  rfl

/-- With passing probe checks and a non-empty data directory, the checks of `makeContainer`
pass and yield the options record and the resolved port. -/
theorem validate_of_dataDir (c : CompactorStatefulSet) (o : CompactorOptions)
    (ho : c.options = some o)
    (hl : ∀ p, c.LivenessProbe = some p →
      p.Port = GetPortOrDefault defaultHTTPPort o.HttpAddress)
    (hr : ∀ p, c.ReadinessProbe = some p →
      p.Port = GetPortOrDefault defaultHTTPPort o.HttpAddress)
    (hdir : o.DataDir ≠ "") :
    validate c = Except.ok (o, GetPortOrDefault defaultHTTPPort o.HttpAddress) := by
  unfold validate
  rw [ho]
  simp only [CheckProbePort_ok _ _ hl, CheckProbePort_ok _ _ hr, hdir]
  rfl

/-- With passing probe checks and a non-empty data directory, `makeContainer` returns the
container built for the options record and the resolved port. -/
theorem makeContainer_of_dataDir (GetOpts : CompactorOptions → List String)
    (c : CompactorStatefulSet) (o : CompactorOptions) (ho : c.options = some o)
    (hl : ∀ p, c.LivenessProbe = some p →
      p.Port = GetPortOrDefault defaultHTTPPort o.HttpAddress)
    (hr : ∀ p, c.ReadinessProbe = some p →
      p.Port = GetPortOrDefault defaultHTTPPort o.HttpAddress)
    (hdir : o.DataDir ≠ "") :
    makeContainer GetOpts c =
      Except.ok
        (buildContainer GetOpts c o (GetPortOrDefault defaultHTTPPort o.HttpAddress)) := by
  unfold makeContainer
  rw [validate_of_dataDir c o ho hl hr hdir]
  rfl

/-- Whatever `makeContainer` returns is the container built for the receiver's options
record and the resolved port. -/
theorem makeContainer_ok_eq (GetOpts : CompactorOptions → List String)
    (c : CompactorStatefulSet) (k : Container) (h : makeContainer GetOpts c = Except.ok k) :
    ∃ o, c.options = some o ∧
      k = buildContainer GetOpts c o (GetPortOrDefault defaultHTTPPort o.HttpAddress) := by
  unfold makeContainer validate at h
  cases ho : c.options with
  | none =>
    rw [ho] at h
    cases h
  | some o =>
    rw [ho] at h
    dsimp only at h
    refine ⟨o, rfl, ?_⟩
    cases h1 : CheckProbePort (GetPortOrDefault defaultHTTPPort o.HttpAddress)
        c.LivenessProbe with
    | error e =>
      rw [h1] at h
      cases h
    | ok u1 =>
      cases h2 : CheckProbePort (GetPortOrDefault defaultHTTPPort o.HttpAddress)
          c.ReadinessProbe with
      | error e =>
        rw [h1, h2] at h
        cases h
      | ok u2 =>
        rw [h1, h2] at h
        by_cases hdir : o.DataDir = ""
        · simp only [hdir] at h
          cases h
        · simp only [hdir] at h
          cases h
          rfl

/-- Probes of a new compactor are built from the port resolved from its options. -/
theorem NewCompactor_probes (opts : Option CompactorOptions) (nspace imageTag : String) :
    (NewCompactor opts nspace imageTag).options = some (opts.getD NewDefaultOptions) ∧
      (NewCompactor opts nspace imageTag).LivenessProbe =
        some (NewProbe "/-/healthy"
          (GetPortOrDefault defaultHTTPPort (opts.getD NewDefaultOptions).HttpAddress)
          { FailureThreshold := 4, PeriodSeconds := 30 }) ∧
      (NewCompactor opts nspace imageTag).ReadinessProbe =
        some (NewProbe "/-/ready"
          (GetPortOrDefault defaultHTTPPort (opts.getD NewDefaultOptions).HttpAddress)
          { FailureThreshold := 20, PeriodSeconds := 5 }) := by
  cases opts <;> exact ⟨rfl, rfl, rfl⟩

/-- C3 (as amended): for every options record (nil standing for the default record) whose
resolved port (the port of `HttpAddress` when it is set, 10902 otherwise) fits in 32 bits,
every namespace and every image tag, the liveness and the readiness probe of the
compactor returned by `NewCompactor` target the resolved port and both probe checks of
`makeContainer` pass; when `DataDir` is non-empty, `makeContainer` returns a container
whose "http" container port and "http" service port (port and target port) equal that
port. -/
theorem NewCompactor_ports_agree (GetOpts : CompactorOptions → List String)
    (opts : Option CompactorOptions) (nspace imageTag : String)
    (hlo : -2147483648 ≤
      GetPortOrDefault defaultHTTPPort (opts.getD NewDefaultOptions).HttpAddress)
    (hhi : GetPortOrDefault defaultHTTPPort (opts.getD NewDefaultOptions).HttpAddress <
      2147483648) :
    GetPortOrDefault defaultHTTPPort (opts.getD NewDefaultOptions).HttpAddress =
        (match (opts.getD NewDefaultOptions).HttpAddress with
          | some a => a.Port
          | none => 10902) ∧
      (NewCompactor opts nspace imageTag).LivenessProbe.map (fun p => p.Port) =
        some (GetPortOrDefault defaultHTTPPort (opts.getD NewDefaultOptions).HttpAddress) ∧
      (NewCompactor opts nspace imageTag).ReadinessProbe.map (fun p => p.Port) =
        some (GetPortOrDefault defaultHTTPPort (opts.getD NewDefaultOptions).HttpAddress) ∧
      CheckProbePort
          (GetPortOrDefault defaultHTTPPort (opts.getD NewDefaultOptions).HttpAddress)
          (NewCompactor opts nspace imageTag).LivenessProbe = Except.ok () ∧
      CheckProbePort
          (GetPortOrDefault defaultHTTPPort (opts.getD NewDefaultOptions).HttpAddress)
          (NewCompactor opts nspace imageTag).ReadinessProbe = Except.ok () ∧
      ((opts.getD NewDefaultOptions).DataDir ≠ "" →
        ∃ k, makeContainer GetOpts (NewCompactor opts nspace imageTag) = Except.ok k ∧
          k.Ports =
            [ { Name := "http",
                ContainerPort :=
                  GetPortOrDefault defaultHTTPPort (opts.getD NewDefaultOptions).HttpAddress,
                Protocol := Protocol.ProtocolTCP } ] ∧
          k.ServicePorts =
            [ { Name := "http",
                Port :=
                  GetPortOrDefault defaultHTTPPort (opts.getD NewDefaultOptions).HttpAddress,
                TargetPort :=
                  GetPortOrDefault defaultHTTPPort
                    (opts.getD NewDefaultOptions).HttpAddress } ]) := by
  obtain ⟨ho, hl, hr⟩ := NewCompactor_probes opts nspace imageTag
  have hfit := toInt32_of_fits _ hlo hhi
  have hl2 : ∀ p, (NewCompactor opts nspace imageTag).LivenessProbe = some p →
      p.Port = GetPortOrDefault defaultHTTPPort (opts.getD NewDefaultOptions).HttpAddress := by
    intro p hp
    rw [hl] at hp
    cases hp
    exact hfit
  have hr2 : ∀ p, (NewCompactor opts nspace imageTag).ReadinessProbe = some p →
      p.Port = GetPortOrDefault defaultHTTPPort (opts.getD NewDefaultOptions).HttpAddress := by
    intro p hp
    rw [hr] at hp
    cases hp
    exact hfit
  refine ⟨?_, ?_, ?_, CheckProbePort_ok _ _ hl2, CheckProbePort_ok _ _ hr2, ?_⟩
  · unfold GetPortOrDefault defaultHTTPPort
    rfl
  · rw [hl]
    exact congrArg some hfit
  · rw [hr]
    exact congrArg some hfit
  · intro hdir
    refine ⟨_, makeContainer_of_dataDir GetOpts _ _ ho hl2 hr2 hdir, ?_, ?_⟩
    · show [ ({ Name := "http", ContainerPort := toInt32 _, Protocol := _ } : ContainerPort) ]
        = _
      rw [hfit]
    · show [ ({ Name := "http", Port := toInt32 _, TargetPort := toInt32 _ } : ServicePort) ]
        = _
      rw [hfit]

/-- Witness for C3: the compactor built from nil options has data directory
`/var/thanos/compactor` and resolved port 10902, and its "http" ports are 10902. -/
theorem NewCompactor_ports_agree_witness :
    (-2147483648 : Int) ≤
        GetPortOrDefault defaultHTTPPort
          ((none : Option CompactorOptions).getD NewDefaultOptions).HttpAddress ∧
      GetPortOrDefault defaultHTTPPort
          ((none : Option CompactorOptions).getD NewDefaultOptions).HttpAddress < 2147483648 ∧
      NewDefaultOptions.DataDir ≠ "" ∧
      (NewCompactor none "observatorium" "v0.32.5").LivenessProbe.map (fun p => p.Port) =
        some 10902 ∧
      (NewCompactor none "observatorium" "v0.32.5").ReadinessProbe.map (fun p => p.Port) =
        some 10902 ∧
      ∃ k, makeContainer (fun _ => []) (NewCompactor none "observatorium" "v0.32.5") =
          Except.ok k ∧
        k.Ports =
          [ { Name := "http", ContainerPort := 10902, Protocol := Protocol.ProtocolTCP } ] ∧
        k.ServicePorts = [ { Name := "http", Port := 10902, TargetPort := 10902 } ] :=
  ⟨by decide, by decide, by decide,
    (NewCompactor_ports_agree (fun _ => []) none "observatorium" "v0.32.5"
      (by decide) (by decide)).2.1,
    (NewCompactor_ports_agree (fun _ => []) none "observatorium" "v0.32.5"
      (by decide) (by decide)).2.2.1,
    (NewCompactor_ports_agree (fun _ => []) none "observatorium" "v0.32.5"
      (by decide) (by decide)).2.2.2.2.2 (by decide)⟩

/-- Counterexample to C3 as stated: for the record with `HttpAddress` port 4294967376
(2^32 + 80) and data directory `/data` the resolved port is 4294967376, while the container
that `makeContainer` builds for it (lines 168-180) has "http" container port 80 and "http"
service port 80; no container returned by `makeContainer` has the resolved port as its
"http" container port. -/
theorem NewCompactor_container_port_truncated :
    GetPortOrDefault defaultHTTPPort
        ({ DataDir := "/data", HttpAddress := some { Port := 4294967376 } } :
          CompactorOptions).HttpAddress = 4294967376 ∧
      (buildContainer (fun _ => [])
        (NewCompactor (some { DataDir := "/data", HttpAddress := some { Port := 4294967376 } })
          "observatorium" "v0.32.5")
        { DataDir := "/data", HttpAddress := some { Port := 4294967376 } } 4294967376).Ports =
        [ { Name := "http", ContainerPort := 80, Protocol := Protocol.ProtocolTCP } ] ∧
      (buildContainer (fun _ => [])
        (NewCompactor (some { DataDir := "/data", HttpAddress := some { Port := 4294967376 } })
          "observatorium" "v0.32.5")
        { DataDir := "/data", HttpAddress := some { Port := 4294967376 } }
        4294967376).ServicePorts = [ { Name := "http", Port := 80, TargetPort := 80 } ] ∧
      ¬ ∃ k, makeContainer (fun _ => [])
          (NewCompactor
            (some { DataDir := "/data", HttpAddress := some { Port := 4294967376 } })
            "observatorium" "v0.32.5") = Except.ok k ∧
        k.Ports =
          [ { Name := "http", ContainerPort := 4294967376,
              Protocol := Protocol.ProtocolTCP } ] := by
  refine ⟨by decide, by decide, by decide, ?_⟩
  rintro ⟨k, hk, hports⟩
  obtain ⟨o, ho, hb⟩ := makeContainer_ok_eq _ _ k hk
  cases ho
  rw [hb] at hports
  revert hports
  decide

/-- C4 (as amended): for every compactor whose declared liveness and readiness probes
target the resolved HTTP port, the checks of `makeContainer` fail if and only if
`options.DataDir` is the empty string. When it is empty the failure is the data-directory
configuration error, and it precedes the template, the serializer and the synthesis:
`makeContainer` returns it for every serializer and `Manifests` for every synthesis, a
failing one included, so no container and no manifest object is built. When it is not
empty, `makeContainer` returns the built container and `Manifests` returns what the
synthesis returns for that container. -/
theorem makeContainer_dataDir_check (c : CompactorStatefulSet) (o : CompactorOptions)
    (ho : c.options = some o)
    (hl : ∀ p, c.LivenessProbe = some p →
      p.Port = GetPortOrDefault defaultHTTPPort o.HttpAddress)
    (hr : ∀ p, c.ReadinessProbe = some p →
      p.Port = GetPortOrDefault defaultHTTPPort o.HttpAddress) :
    ((∃ e, validate c = Except.error e) ↔ o.DataDir = "") ∧
      (o.DataDir = "" →
        validate c =
          Except.error
            (Failure.panicMsg "data directory is not specified for the statefulset.") ∧
        (∀ GetOpts : CompactorOptions → List String,
          makeContainer GetOpts c =
            Except.error
              (Failure.panicMsg "data directory is not specified for the statefulset.")) ∧
        ∀ (GetOpts : CompactorOptions → List String) (ObjectMap : Type)
          (gen : DeploymentGenericConfig → Container → Except Failure ObjectMap),
          Manifests GetOpts gen c =
            Except.error
              (Failure.panicMsg "data directory is not specified for the statefulset.")) ∧
      (o.DataDir ≠ "" →
        ∀ GetOpts : CompactorOptions → List String,
          makeContainer GetOpts c =
            Except.ok
              (buildContainer GetOpts c o
                (GetPortOrDefault defaultHTTPPort o.HttpAddress)) ∧
          ∀ (ObjectMap : Type)
            (gen : DeploymentGenericConfig → Container → Except Failure ObjectMap),
            Manifests GetOpts gen c =
              gen c.toDeploymentGenericConfig
                (buildContainer GetOpts c o
                  (GetPortOrDefault defaultHTTPPort o.HttpAddress))) := by
  refine ⟨⟨?_, fun hdir => ⟨_, validate_of_empty_dataDir c o ho hl hr hdir⟩⟩, ?_, ?_⟩
  · rintro ⟨e, he⟩
    by_contra hdir
    rw [validate_of_dataDir c o ho hl hr hdir] at he
    cases he
  · intro hdir
    have hv := validate_of_empty_dataDir c o ho hl hr hdir
    have hm : ∀ GetOpts : CompactorOptions → List String,
        makeContainer GetOpts c =
          Except.error
            (Failure.panicMsg "data directory is not specified for the statefulset.") := by
      intro GetOpts
      unfold makeContainer
      rw [hv]
      rfl
    refine ⟨hv, hm, fun GetOpts _ gen => ?_⟩
    unfold Manifests
    rw [hm GetOpts]
    rfl
  · intro hdir GetOpts
    have hm := makeContainer_of_dataDir GetOpts c o ho hl hr hdir
    refine ⟨hm, fun _ gen => ?_⟩
    unfold Manifests
    rw [hm]
    rfl

/-- Witness for C4: a new compactor over a record with an empty data directory has probes on
the resolved port 10902, and the checks of `makeContainer` fail on it. -/
theorem makeContainer_dataDir_check_witness :
    (NewCompactor (some {}) "observatorium" "v0.32.5").options = some {} ∧
      (NewCompactor (some {}) "observatorium" "v0.32.5").LivenessProbe.map (fun p => p.Port) =
        some (GetPortOrDefault defaultHTTPPort ({} : CompactorOptions).HttpAddress) ∧
      (NewCompactor (some {}) "observatorium" "v0.32.5").ReadinessProbe.map (fun p => p.Port) =
        some (GetPortOrDefault defaultHTTPPort ({} : CompactorOptions).HttpAddress) ∧
      ((∃ e, validate (NewCompactor (some {}) "observatorium" "v0.32.5") = Except.error e) ↔
        ({} : CompactorOptions).DataDir = "") :=
  ⟨rfl, by decide, by decide,
    (makeContainer_dataDir_check
      (NewCompactor (some {}) "observatorium" "v0.32.5") {} rfl
      (fun _ hp => by cases hp; decide) (fun _ hp => by cases hp; decide)).1⟩

/-- Counterexample to C4 as stated: the default compactor with one sidecar whose service
port is also named "http" has a non-empty data directory and probes on the resolved port
10902, and `makeContainer` returns its container; `Manifests` still fails, in the synthesis,
on the duplicate port name. -/
theorem Manifests_fails_on_duplicate_port_name :
    NewDefaultOptions.DataDir = "/var/thanos/compactor" ∧
      GetPortOrDefault defaultHTTPPort NewDefaultOptions.HttpAddress = 10902 ∧
      ({ NewCompactor none "observatorium" "v0.32.5" with
          Sidecars := [ { Name := "proxy", ServicePorts := [NewServicePort "http" 8080 8080] } ]
        } : CompactorStatefulSet).LivenessProbe.map (fun p => p.Port) = some 10902 ∧
      ({ NewCompactor none "observatorium" "v0.32.5" with
          Sidecars := [ { Name := "proxy", ServicePorts := [NewServicePort "http" 8080 8080] } ]
        } : CompactorStatefulSet).ReadinessProbe.map (fun p => p.Port) = some 10902 ∧
      (makeContainer (fun _ => [])
        { NewCompactor none "observatorium" "v0.32.5" with
          Sidecars := [ { Name := "proxy", ServicePorts := [NewServicePort "http" 8080 8080] } ]
        }).toOption.map (fun k => k.ServicePorts.map (fun p => p.Name)) = some ["http"] ∧
      Manifests (fun _ => []) DeploymentGenericConfig.GenerateObjectsStatefulSet
        { NewCompactor none "observatorium" "v0.32.5" with
          Sidecars := [ { Name := "proxy", ServicePorts := [NewServicePort "http" 8080 8080] } ]
        } = Except.error (Failure.panicMsg "duplicate port name") := by
  refine ⟨by decide, by decide, by decide, by decide, by decide, ?_⟩
  rfl

/-- C7: in both option field models the flag names of the `opt` tags are pairwise distinct:
the 9 typed fields of `MemcachedOptions` and the 41 typed fields of `CompactorOptions`. -/
theorem opt_flag_names_distinct :
    (∀ o : memcached.MemcachedOptions,
        (o.fields.map (fun f => f.flag)).Nodup ∧ o.fields.length = 9) ∧
      (CompactorOptions.optTags.map (fun t => cmdopt.tagFlag t.2)).Nodup ∧
      CompactorOptions.optTags.length = 41 := by
  refine ⟨fun o => ⟨?_, rfl⟩, ?_, rfl⟩
  · simp only [memcached.MemcachedOptions.fields, List.map, cmdopt.OptField.flag]
    decide
  · decide

/-- C9: for every compactor that passes validation (declared probes target the resolved
port and the data directory is non-empty), `makeContainer` returns a container with exactly
one volume claim, named "data" and carrying the descriptor's `VolumeType` and `VolumeSize`,
and exactly one volume mount, named as that claim and mounted at `options.DataDir`, which is
non-empty; every volume mount names a volume claim of the same container. -/
theorem makeContainer_volume_wiring (GetOpts : CompactorOptions → List String)
    (c : CompactorStatefulSet) (o : CompactorOptions) (ho : c.options = some o)
    (hl : ∀ p, c.LivenessProbe = some p →
      p.Port = GetPortOrDefault defaultHTTPPort o.HttpAddress)
    (hr : ∀ p, c.ReadinessProbe = some p →
      p.Port = GetPortOrDefault defaultHTTPPort o.HttpAddress)
    (hdir : o.DataDir ≠ "") :
    ∃ k, makeContainer GetOpts c = Except.ok k ∧
      k.VolumeClaims =
        [ { Name := "data", VolumeType := c.VolumeType, VolumeSize := c.VolumeSize } ] ∧
      k.VolumeMounts = [ { Name := "data", MountPath := o.DataDir } ] ∧
      (∀ m ∈ k.VolumeMounts, m.MountPath ≠ "" ∧ ∃ v ∈ k.VolumeClaims, v.Name = m.Name) := by
  refine ⟨_, makeContainer_of_dataDir GetOpts c o ho hl hr hdir, rfl, rfl, ?_⟩
  intro m hm
  have hm2 : m = { Name := "data", MountPath := o.DataDir } := List.mem_singleton.mp hm
  subst hm2
  exact ⟨hdir, _, List.mem_singleton.mpr rfl, rfl⟩

/-- Witness for C9: the compactor built from nil options passes validation and mounts the
"data" claim of size 50Gi at `/var/thanos/compactor`. -/
theorem makeContainer_volume_wiring_witness :
    NewDefaultOptions.DataDir ≠ "" ∧
      ∃ k, makeContainer (fun _ => []) (NewCompactor none "observatorium" "v0.32.5") =
          Except.ok k ∧
        k.VolumeClaims = [ { Name := "data", VolumeType := "", VolumeSize := "50Gi" } ] ∧
        k.VolumeMounts = [ { Name := "data", MountPath := "/var/thanos/compactor" } ] ∧
        (∀ m ∈ k.VolumeMounts, m.MountPath ≠ "" ∧ ∃ v ∈ k.VolumeClaims, v.Name = m.Name) :=
  ⟨by decide,
    makeContainer_volume_wiring (fun _ => []) (NewCompactor none "observatorium" "v0.32.5")
      NewDefaultOptions rfl (fun _ hp => by cases hp; rfl) (fun _ hp => by cases hp; rfl)
      (by decide)⟩

end compactor

end Observatorium
